import Mathlib

/-!
Shallow embedding of the Yogabrata API gateway (Express application in
`api-gateway`).  The gateway registers, in order: a rate limiter, a request
logger, `GET /health`, `GET /api/services`, four proxied mounts
(`/api/v1/startup`, `/api/v1/legal`, `/api/v1/content`, `/api/v1/business`,
each with an optional-authentication middleware and a proxy with an anchored
path rewrite and `changeOrigin`), a `/api/*` fallback, a development-only
static/SPA catch-all, a global error handler, and a final `*` 404 handler.
-/

namespace Gateway

/-- Character-level string prefix test; Express mount matching and the
    anchored proxy rewrite rules compare URL paths character by character. -/
def strIsPre (p s : String) : Bool := p.data.isPrefixOf s.data

/-- Drop the first `n` characters of a string. -/
def strDrop (s : String) (n : Nat) : String := ⟨s.data.drop n⟩

/-- Environment-style configuration read once at startup (`process.env`). -/
structure Env where
  nodeEnv : Option String
  jwtSecret : Option String
  startupUrl : Option String
  legalUrl : Option String
  contentUrl : Option String
  businessUrl : Option String
deriving DecidableEq

/-- SERVICES.startupFormation with its hardcoded fallback. -/
def startupFormationUrl (env : Env) : String :=
  env.startupUrl.getD "http://startup-formation:8000"

/-- SERVICES.legalCompliance with its hardcoded fallback. -/
def legalComplianceUrl (env : Env) : String :=
  env.legalUrl.getD "http://legal-compliance:8000"

/-- SERVICES.contentStrategy with its hardcoded fallback. -/
def contentStrategyUrl (env : Env) : String :=
  env.contentUrl.getD "http://content-strategy:8000"

/-- SERVICES.businessFormation with its hardcoded fallback. -/
def businessFormationUrl (env : Env) : String :=
  env.businessUrl.getD "http://business-formation:8000"

/-- Object.keys(SERVICES): the four registered logical service names, in
    declaration order. -/
def serviceNames : List String :=
  ["startupFormation", "legalCompliance", "contentStrategy", "businessFormation"]

/-- Entries produced by `GET /api/services`: (name, url, status). -/
def servicesList (env : Env) : List (String × String × String) :=
  [("startupFormation", startupFormationUrl env, "healthy"),
   ("legalCompliance", legalComplianceUrl env, "healthy"),
   ("contentStrategy", contentStrategyUrl env, "healthy"),
   ("businessFormation", businessFormationUrl env, "healthy")]

/-- Inbound request headers; the host header and the authorization header are
    modelled explicitly, all remaining headers are an association list. -/
structure Headers where
  host : String
  authorization : Option String
  rest : List (String × String)
deriving DecidableEq

/-- An inbound HTTP request as the gateway sees it.  `query` is the raw query
    string without the leading question mark (empty when absent); `body` is
    the raw byte sequence. -/
structure Request where
  method : String
  path : String
  query : String
  headers : Headers
  body : List Nat
  ip : String
deriving DecidableEq

/-- Express `req.originalUrl`: path plus query string. -/
def originalUrl (req : Request) : String :=
  req.path ++ (if req.query == "" then "" else "?" ++ req.query)

/-- JSON values appearing in the gateway's own responses. -/
inductive JVal where
  | s : String → JVal
  | n : Nat → JVal
  | ss : List String → JVal
  | svc : List (String × String × String) → JVal
deriving DecidableEq

/-- A JSON object body: field name to value, in source order. -/
abbrev JBody := List (String × JVal)

/-- One proxied route registration: mount path, rewrite rule (the source
    anchors the rewrite with a leading caret, modelled by matching at the
    start of the path), upstream target, and the service-specific error
    payload used by its onError handler. -/
structure ProxyRoute where
  serviceName : String
  mountPath : String
  rewriteSource : String
  rewriteTarget : String
  target : String
  errorCode : String
  errorMessage : String
deriving DecidableEq

/-- The four proxied routes, in registration order. -/
def gatewayRoutes (env : Env) : List ProxyRoute :=
  [⟨"startupFormation", "/api/v1/startup", "/api/v1/startup", "/api/v1",
    startupFormationUrl env, "STARTUP_FORMATION_ERROR",
    "Startup Formation Service is currently unavailable"⟩,
   ⟨"legalCompliance", "/api/v1/legal", "/api/v1/legal", "/api/v1",
    legalComplianceUrl env, "LEGAL_COMPLIANCE_ERROR",
    "Legal Compliance Service is currently unavailable"⟩,
   ⟨"contentStrategy", "/api/v1/content", "/api/v1/content", "/api/v1",
    contentStrategyUrl env, "CONTENT_STRATEGY_ERROR",
    "Content Strategy Service is currently unavailable"⟩,
   ⟨"businessFormation", "/api/v1/business", "/api/v1/business", "/api/v1",
    businessFormationUrl env, "BUSINESS_FORMATION_ERROR",
    "Business Formation Service is currently unavailable"⟩]

/-- Express mount-path matching for `app.use(mount, ...)`: the path equals the
    mount or continues past it at a path-segment boundary. -/
def mountMatches (mount p : String) : Bool :=
  p == mount || strIsPre (mount ++ "/") p

/-- Express route matching for `app.get(pattern, ...)` with a plain path
    pattern (non-strict: a single trailing slash also matches). -/
def routePathMatches (pattern p : String) : Bool :=
  p == pattern || p == pattern ++ "/"

/-- The http-proxy-middleware pathRewrite rule: when the anchored source
    matches, replace it; otherwise leave the path unchanged. -/
def pathRewrite (src dst url : String) : String :=
  if strIsPre src url then dst ++ strDrop url src.length else url

/-- Host portion of an upstream base URL, as used for `changeOrigin: true`. -/
def hostOfTarget (u : String) : String :=
  if strIsPre "http://" u then strDrop u 7 else u

/-- The request actually forwarded upstream: path rewritten, host header
    replaced by the upstream host (changeOrigin), everything else copied. -/
def forwardReq (r : ProxyRoute) (req : Request) : Request :=
  { req with
    path := pathRewrite r.rewriteSource r.rewriteTarget req.path,
    headers := { req.headers with host := hostOfTarget r.target } }

/-- What the gateway does with a request once past the rate limiter. -/
inductive Outcome where
  | respond : Nat → JBody → Outcome
  | proxyTo : ProxyRoute → Request → Outcome
  | staticFile : String → Outcome
  | sendFile : String → Outcome
deriving DecidableEq

/-- Body of the `GET /health` response; timestamps and uptime are modelled in
    abstract time units, with `process.uptime()` as time since start. -/
def healthBody (startTime now : Nat) : JBody :=
  [("status", JVal.s "healthy"),
   ("service", JVal.s "api-gateway"),
   ("timestamp", JVal.n now),
   ("uptime", JVal.n (now - startTime))]

/-- Body of the `GET /api/services` response. -/
def servicesBody (env : Env) : JBody :=
  [("services", JVal.svc (servicesList env))]

/-- Body of the `/api/*` fallback 404 response. -/
def apiNotFoundBody (req : Request) : JBody :=
  [("error", JVal.s "API_ENDPOINT_NOT_FOUND"),
   ("message", JVal.s ("API endpoint " ++ originalUrl req ++ " not found")),
   ("availableServices", JVal.ss serviceNames)]

/-- Body of the final `*` 404 response. -/
def notFoundBody (req : Request) : JBody :=
  [("error", JVal.s "NOT_FOUND"),
   ("message", JVal.s ("Route " ++ originalUrl req ++ " not found"))]

/-- Route dispatch, mirroring the registration order of the source: /health,
    /api/services, the four proxied mounts, the /api/* fallback, the
    development-only static/SPA catch-all, and the final 404 handler.
    `sfiles` lists the paths the static middleware can serve. -/
def dispatch (env : Env) (sfiles : List String) (startTime now : Nat)
    (req : Request) : Outcome :=
  if req.method == "GET" && routePathMatches "/health" req.path then
    Outcome.respond 200 (healthBody startTime now)
  else if req.method == "GET" && routePathMatches "/api/services" req.path then
    Outcome.respond 200 (servicesBody env)
  else
    match (gatewayRoutes env).find? (fun r => mountMatches r.mountPath req.path) with
    | some r => Outcome.proxyTo r (forwardReq r req)
    | none =>
      if strIsPre "/api/" req.path then
        Outcome.respond 404 (apiNotFoundBody req)
      else if env.nodeEnv == some "development" && req.method == "GET" then
        if sfiles.contains req.path then Outcome.staticFile req.path
        else Outcome.sendFile "index.html"
      else
        Outcome.respond 404 (notFoundBody req)

/-- JavaScript split on a single space character: every space starts a new
    word and empty words are kept, so "".split gives [""]. -/
def splitSp : List Char → List (List Char)
  | [] => [[]]
  | c :: cs =>
    match splitSp cs with
    | [] => [[]]
    | w :: ws => if c = ' ' then [] :: w :: ws else (c :: w) :: ws

/-- Token extraction in authenticateToken:
    `authHeader && authHeader.split(' ')[1]`, with JavaScript falsiness of the
    missing header and of the empty string. -/
def extractToken (authHeader : Option String) : Option String :=
  match authHeader with
  | none => none
  | some h =>
    match (splitSp h.data).get? 1 with
    | none => none
    | some t => if t.isEmpty then none else some (String.mk t)

/-- The secret handed to jwt.verify: JWT_SECRET or the hardcoded fallback. -/
def jwtSecretOf (env : Env) : String := env.jwtSecret.getD "your-secret-key"

/-- Result of authenticateToken, with jwt.verify abstracted as a function
    from token and secret to optionally-decoded claims: the user attached to
    the request, none when the header is absent or verification fails. -/
def authUser (verify : String → String → Option String) (env : Env)
    (authHeader : Option String) : Option String :=
  match extractToken authHeader with
  | none => none
  | some t => verify t (jwtSecretOf env)

/-- The `req.user` field after the middleware chain: authenticateToken is
    installed only on the four proxied mounts. -/
def reqUser (verify : String → String → Option String) (env : Env)
    (req : Request) : Option String :=
  if (gatewayRoutes env).any (fun r => mountMatches r.mountPath req.path) then
    authUser verify env req.headers.authorization
  else none

/-- Observation of an outcome that hides the authorization header copied into
    a forwarded upstream request (it is relayed verbatim either way). -/
def eraseAuth : Outcome → Outcome
  | Outcome.proxyTo r f =>
    Outcome.proxyTo r { f with headers := { f.headers with authorization := none } }
  | o => o

/-- Replace the authorization header of a request. -/
def setAuth (req : Request) (h : Option String) : Request :=
  { req with headers := { req.headers with authorization := h } }

/-- Rate limiter window: 15 minutes in milliseconds. -/
def rlWindowMs : Nat := 15 * 60 * 1000

/-- Rate limiter budget: 1000 requests per IP per window. -/
def rlMax : Nat := 1000

/-- Rate limiter state: start of the current window and per-IP hit counts. -/
structure RLState where
  windowStart : Nat
  hits : List (String × Nat)
deriving DecidableEq

/-- Current hit count for an IP. -/
def getHits (hs : List (String × Nat)) (ip : String) : Nat :=
  match hs.find? (fun e => e.fst == ip) with
  | some e => e.snd
  | none => 0

/-- Record one more hit for an IP. -/
def bumpHits (hs : List (String × Nat)) (ip : String) : List (String × Nat) :=
  (ip, getHits hs ip + 1) :: hs.filter (fun e => !(e.fst == ip))

/-- One rate limiter step: reset the window if it has elapsed, count the
    request, and allow it iff the count stays within the budget.  Returns
    whether the request is allowed, plus the new state. -/
def rlStep (st : RLState) (ip : String) (now : Nat) : Bool × RLState :=
  let st₀ := if st.windowStart + rlWindowMs ≤ now then RLState.mk now [] else st
  let c := getHits st₀.hits ip + 1
  (decide (c ≤ rlMax), RLState.mk st₀.windowStart (bumpHits st₀.hits ip))

/-- Body of the 429 response, the limiter's static message object. -/
def rateLimitBody : JBody :=
  [("error", JVal.s "Too many requests from this IP, please try again later.")]

/-- Full per-request pipeline: rate limiter first, then identity decoration
    and route dispatch.  Returns the outcome, the attached `req.user`, and
    the new limiter state. -/
def handleRequest (verify : String → String → Option String) (env : Env)
    (sfiles : List String) (startTime now : Nat) (st : RLState)
    (req : Request) : Outcome × Option String × RLState :=
  let step := rlStep st req.ip now
  if step.fst then
    (dispatch env sfiles startTime now req, reqUser verify env req, step.snd)
  else
    (Outcome.respond 429 rateLimitBody, none, step.snd)

/-- The global Express error handler: status 500 with a fixed body; the
    triggering error message is only logged, never placed in the body. -/
def globalErrorHandler (err : String) : Nat × JBody :=
  (500,
   [("error", JVal.s "INTERNAL_ERROR"),
    ("message", JVal.s "An unexpected error occurred")])

/-- The per-service onError handler of the proxy middleware: status 500 with
    the route's fixed error code and message; the network error message is
    only logged, never placed in the body. -/
def proxyErrorResponse (r : ProxyRoute) (err : String) : Nat × JBody :=
  (500,
   [("error", JVal.s r.errorCode),
    ("message", JVal.s r.errorMessage)])

/-- Status of a direct (non-proxied) gateway response. -/
def statusOf : Outcome → Option Nat
  | Outcome.respond s _ => some s
  | _ => none

/-- Default environment: nothing set, all hardcoded fallbacks in force. -/
def envDefault : Env := ⟨none, none, none, none, none, none⟩

/-- Development environment: NODE_ENV=development, everything else unset. -/
def envDev : Env := ⟨some "development", none, none, none, none, none⟩

/-! Helper lemmas about character-level path matching. -/

theorem strIsPre_iff {p s : String} : strIsPre p s = true ↔ p.data <+: s.data := by
  simp [strIsPre, List.isPrefixOf_iff_prefix]

theorem string_ext {s t : String} (h : s.data = t.data) : s = t := by
  cases s
  cases t
  exact congrArg String.mk h

theorem beq_append_fixed_false (C rest D : String) (n : Nat)
    (h₁ : n ≤ C.length) (h₂ : C.data.take n ≠ D.data.take n) :
    ((C ++ rest) == D) = false := by
  apply beq_eq_false_iff_ne.mpr
  intro h
  apply h₂
  have hd : C.data ++ rest.data = D.data := by
    rw [← String.data_append, h]
  calc C.data.take n = (C.data ++ rest.data).take n :=
        (List.take_append_of_le_length h₁).symm
    _ = D.data.take n := by rw [hd]

theorem isPre_append_false (m C rest : String) (n : Nat)
    (h₁ : n ≤ C.length) (h₂ : n ≤ m.length)
    (h₃ : m.data.take n ≠ C.data.take n) :
    strIsPre m (C ++ rest) = false := by
  rw [Bool.eq_false_iff]
  intro h
  rcases strIsPre_iff.mp h with ⟨t, ht⟩
  apply h₃
  have hC : (C ++ rest).data = C.data ++ rest.data := String.data_append C rest
  calc m.data.take n = (m.data ++ t).take n :=
        (List.take_append_of_le_length h₂).symm
    _ = (C.data ++ rest.data).take n := by rw [ht, hC]
    _ = C.data.take n := List.take_append_of_le_length h₁

theorem mountMatches_append_false (m C rest : String) (n : Nat)
    (h₁ : n ≤ C.length) (h₂ : n ≤ (m ++ "/").length)
    (h₃ : (m ++ "/").data.take n ≠ C.data.take n)
    (h₄ : C.data.take n ≠ m.data.take n) :
    mountMatches m (C ++ rest) = false := by
  unfold mountMatches
  rw [beq_append_fixed_false C rest m n h₁ h₄,
    isPre_append_false (m ++ "/") C rest n h₁ h₂ h₃]
  rfl

theorem routePathMatches_append_false (pat C rest : String) (n : Nat)
    (h₁ : n ≤ C.length)
    (h₂ : C.data.take n ≠ pat.data.take n)
    (h₃ : C.data.take n ≠ (pat ++ "/").data.take n) :
    routePathMatches pat (C ++ rest) = false := by
  unfold routePathMatches
  rw [beq_append_fixed_false C rest pat n h₁ h₂,
    beq_append_fixed_false C rest (pat ++ "/") n h₁ h₃]
  rfl

theorem mountMatches_self_append (m rest : String) :
    mountMatches m ((m ++ "/") ++ rest) = true := by
  unfold mountMatches
  have h : strIsPre (m ++ "/") ((m ++ "/") ++ rest) = true := by
    rw [strIsPre_iff]
    exact ⟨rest.data, (String.data_append (m ++ "/") rest).symm⟩
  rw [h, Bool.or_true]

theorem pathRewrite_mount (m dst rest : String) :
    pathRewrite m dst ((m ++ "/") ++ rest) = (dst ++ "/") ++ rest := by
  have hpre : strIsPre m ((m ++ "/") ++ rest) = true := by
    rw [strIsPre_iff]
    refine ⟨"/".data ++ rest.data, ?_⟩
    simp [String.data_append]
  unfold pathRewrite
  rw [hpre]
  simp only [if_true]
  apply string_ext
  have h1 : ((m ++ "/") ++ rest).data = m.data ++ ("/".data ++ rest.data) := by
    simp [String.data_append]
  simp only [String.data_append, strDrop, h1]
  rw [show m.length = m.data.length from rfl, List.drop_left]
  simp

theorem dispatch_proxy_of_found (env : Env) (sfiles : List String)
    (startTime now : Nat) (req : Request) (r : ProxyRoute)
    (hfind : (gatewayRoutes env).find? (fun x => mountMatches x.mountPath req.path)
      = some r)
    (hh : routePathMatches "/health" req.path = false)
    (hs : routePathMatches "/api/services" req.path = false) :
    dispatch env sfiles startTime now req = Outcome.proxyTo r (forwardReq r req) := by
  unfold dispatch
  rw [hh, hs]
  simp only [Bool.and_false, Bool.false_eq_true, if_false, hfind]

/-- C1: for a request whose path extends one of the four registered mount
    paths past a segment boundary, the gateway proxies it to that route's
    upstream, with the matched portion of the path rewritten to /api/v1 and
    method, query string, body, client address, and all headers except the
    host header (replaced by the upstream host, changeOrigin) copied
    verbatim; the matching route is the unique registered route whose mount
    path matches, hence also the longest-matching one. -/
theorem proxy_routing_rewrite (env : Env) (sfiles : List String)
    (startTime now : Nat) (req : Request) (r : ProxyRoute)
    (hr : r ∈ gatewayRoutes env) (rest : String)
    (hp : req.path = r.mountPath ++ "/" ++ rest) :
    dispatch env sfiles startTime now req =
      Outcome.proxyTo r
        { method := req.method, path := "/api/v1/" ++ rest, query := req.query,
          headers := { host := hostOfTarget r.target,
                       authorization := req.headers.authorization,
                       rest := req.headers.rest },
          body := req.body, ip := req.ip }
    ∧ (∀ r' ∈ gatewayRoutes env, mountMatches r'.mountPath req.path = true → r' = r) := by
  simp only [gatewayRoutes, List.mem_cons, List.not_mem_nil, or_false] at hr
  rcases hr with rfl | rfl | rfl | rfl
  · have hp' : req.path = ("/api/v1/startup" ++ "/") ++ rest := hp
    have hh : routePathMatches "/health" req.path = false := by
      rw [hp']
      exact routePathMatches_append_false _ _ _ 2 (by decide) (by decide) (by decide)
    have hs : routePathMatches "/api/services" req.path = false := by
      rw [hp']
      exact routePathMatches_append_false _ _ _ 6 (by decide) (by decide) (by decide)
    have m1 : mountMatches "/api/v1/startup" req.path = true := by
      rw [hp']
      exact mountMatches_self_append _ _
    have hfind : (gatewayRoutes env).find? (fun x => mountMatches x.mountPath req.path)
        = some ⟨"startupFormation", "/api/v1/startup", "/api/v1/startup", "/api/v1",
            startupFormationUrl env, "STARTUP_FORMATION_ERROR",
            "Startup Formation Service is currently unavailable"⟩ := by
      simp only [gatewayRoutes, List.find?, m1]
    have hrw : pathRewrite "/api/v1/startup" "/api/v1" req.path = "/api/v1/" ++ rest := by
      rw [hp', pathRewrite_mount,
        show ("/api/v1" ++ "/") = "/api/v1/" from by decide]
    refine ⟨?_, ?_⟩
    · rw [dispatch_proxy_of_found env sfiles startTime now req _ hfind hh hs]
      simp only [forwardReq]
      rw [hrw]
    · intro r' hr' hm
      rw [hp'] at hm
      simp only [gatewayRoutes, List.mem_cons, List.not_mem_nil, or_false] at hr'
      rcases hr' with rfl | rfl | rfl | rfl
      · rfl
      · exact absurd hm (by
          rw [mountMatches_append_false "/api/v1/legal" _ rest 9
            (by decide) (by decide) (by decide) (by decide)]
          decide)
      · exact absurd hm (by
          rw [mountMatches_append_false "/api/v1/content" _ rest 9
            (by decide) (by decide) (by decide) (by decide)]
          decide)
      · exact absurd hm (by
          rw [mountMatches_append_false "/api/v1/business" _ rest 9
            (by decide) (by decide) (by decide) (by decide)]
          decide)
  · have hp' : req.path = ("/api/v1/legal" ++ "/") ++ rest := hp
    have hh : routePathMatches "/health" req.path = false := by
      rw [hp']
      exact routePathMatches_append_false _ _ _ 2 (by decide) (by decide) (by decide)
    have hs : routePathMatches "/api/services" req.path = false := by
      rw [hp']
      exact routePathMatches_append_false _ _ _ 6 (by decide) (by decide) (by decide)
    have n1 : mountMatches "/api/v1/startup" req.path = false := by
      rw [hp']
      exact mountMatches_append_false _ _ _ 9 (by decide) (by decide) (by decide) (by decide)
    have m1 : mountMatches "/api/v1/legal" req.path = true := by
      rw [hp']
      exact mountMatches_self_append _ _
    have hfind : (gatewayRoutes env).find? (fun x => mountMatches x.mountPath req.path)
        = some ⟨"legalCompliance", "/api/v1/legal", "/api/v1/legal", "/api/v1",
            legalComplianceUrl env, "LEGAL_COMPLIANCE_ERROR",
            "Legal Compliance Service is currently unavailable"⟩ := by
      simp only [gatewayRoutes, List.find?, n1, m1]
    have hrw : pathRewrite "/api/v1/legal" "/api/v1" req.path = "/api/v1/" ++ rest := by
      rw [hp', pathRewrite_mount,
        show ("/api/v1" ++ "/") = "/api/v1/" from by decide]
    refine ⟨?_, ?_⟩
    · rw [dispatch_proxy_of_found env sfiles startTime now req _ hfind hh hs]
      simp only [forwardReq]
      rw [hrw]
    · intro r' hr' hm
      rw [hp'] at hm
      simp only [gatewayRoutes, List.mem_cons, List.not_mem_nil, or_false] at hr'
      rcases hr' with rfl | rfl | rfl | rfl
      · exact absurd hm (by
          rw [mountMatches_append_false "/api/v1/startup" _ rest 9
            (by decide) (by decide) (by decide) (by decide)]
          decide)
      · rfl
      · exact absurd hm (by
          rw [mountMatches_append_false "/api/v1/content" _ rest 9
            (by decide) (by decide) (by decide) (by decide)]
          decide)
      · exact absurd hm (by
          rw [mountMatches_append_false "/api/v1/business" _ rest 9
            (by decide) (by decide) (by decide) (by decide)]
          decide)
  · have hp' : req.path = ("/api/v1/content" ++ "/") ++ rest := hp
    have hh : routePathMatches "/health" req.path = false := by
      rw [hp']
      exact routePathMatches_append_false _ _ _ 2 (by decide) (by decide) (by decide)
    have hs : routePathMatches "/api/services" req.path = false := by
      rw [hp']
      exact routePathMatches_append_false _ _ _ 6 (by decide) (by decide) (by decide)
    have n1 : mountMatches "/api/v1/startup" req.path = false := by
      rw [hp']
      exact mountMatches_append_false _ _ _ 9 (by decide) (by decide) (by decide) (by decide)
    have n2 : mountMatches "/api/v1/legal" req.path = false := by
      rw [hp']
      exact mountMatches_append_false _ _ _ 9 (by decide) (by decide) (by decide) (by decide)
    have m1 : mountMatches "/api/v1/content" req.path = true := by
      rw [hp']
      exact mountMatches_self_append _ _
    have hfind : (gatewayRoutes env).find? (fun x => mountMatches x.mountPath req.path)
        = some ⟨"contentStrategy", "/api/v1/content", "/api/v1/content", "/api/v1",
            contentStrategyUrl env, "CONTENT_STRATEGY_ERROR",
            "Content Strategy Service is currently unavailable"⟩ := by
      simp only [gatewayRoutes, List.find?, n1, n2, m1]
    have hrw : pathRewrite "/api/v1/content" "/api/v1" req.path = "/api/v1/" ++ rest := by
      rw [hp', pathRewrite_mount,
        show ("/api/v1" ++ "/") = "/api/v1/" from by decide]
    refine ⟨?_, ?_⟩
    · rw [dispatch_proxy_of_found env sfiles startTime now req _ hfind hh hs]
      simp only [forwardReq]
      rw [hrw]
    · intro r' hr' hm
      rw [hp'] at hm
      simp only [gatewayRoutes, List.mem_cons, List.not_mem_nil, or_false] at hr'
      rcases hr' with rfl | rfl | rfl | rfl
      · exact absurd hm (by
          rw [mountMatches_append_false "/api/v1/startup" _ rest 9
            (by decide) (by decide) (by decide) (by decide)]
          decide)
      · exact absurd hm (by
          rw [mountMatches_append_false "/api/v1/legal" _ rest 9
            (by decide) (by decide) (by decide) (by decide)]
          decide)
      · rfl
      · exact absurd hm (by
          rw [mountMatches_append_false "/api/v1/business" _ rest 9
            (by decide) (by decide) (by decide) (by decide)]
          decide)
  · have hp' : req.path = ("/api/v1/business" ++ "/") ++ rest := hp
    have hh : routePathMatches "/health" req.path = false := by
      rw [hp']
      exact routePathMatches_append_false _ _ _ 2 (by decide) (by decide) (by decide)
    have hs : routePathMatches "/api/services" req.path = false := by
      rw [hp']
      exact routePathMatches_append_false _ _ _ 6 (by decide) (by decide) (by decide)
    have n1 : mountMatches "/api/v1/startup" req.path = false := by
      rw [hp']
      exact mountMatches_append_false _ _ _ 9 (by decide) (by decide) (by decide) (by decide)
    have n2 : mountMatches "/api/v1/legal" req.path = false := by
      rw [hp']
      exact mountMatches_append_false _ _ _ 9 (by decide) (by decide) (by decide) (by decide)
    have n3 : mountMatches "/api/v1/content" req.path = false := by
      rw [hp']
      exact mountMatches_append_false _ _ _ 9 (by decide) (by decide) (by decide) (by decide)
    have m1 : mountMatches "/api/v1/business" req.path = true := by
      rw [hp']
      exact mountMatches_self_append _ _
    have hfind : (gatewayRoutes env).find? (fun x => mountMatches x.mountPath req.path)
        = some ⟨"businessFormation", "/api/v1/business", "/api/v1/business", "/api/v1",
            businessFormationUrl env, "BUSINESS_FORMATION_ERROR",
            "Business Formation Service is currently unavailable"⟩ := by
      simp only [gatewayRoutes, List.find?, n1, n2, n3, m1]
    have hrw : pathRewrite "/api/v1/business" "/api/v1" req.path = "/api/v1/" ++ rest := by
      rw [hp', pathRewrite_mount,
        show ("/api/v1" ++ "/") = "/api/v1/" from by decide]
    refine ⟨?_, ?_⟩
    · rw [dispatch_proxy_of_found env sfiles startTime now req _ hfind hh hs]
      simp only [forwardReq]
      rw [hrw]
    · intro r' hr' hm
      rw [hp'] at hm
      simp only [gatewayRoutes, List.mem_cons, List.not_mem_nil, or_false] at hr'
      rcases hr' with rfl | rfl | rfl | rfl
      · exact absurd hm (by
          rw [mountMatches_append_false "/api/v1/startup" _ rest 9
            (by decide) (by decide) (by decide) (by decide)]
          decide)
      · exact absurd hm (by
          rw [mountMatches_append_false "/api/v1/legal" _ rest 9
            (by decide) (by decide) (by decide) (by decide)]
          decide)
      · exact absurd hm (by
          rw [mountMatches_append_false "/api/v1/content" _ rest 9
            (by decide) (by decide) (by decide) (by decide)]
          decide)
      · rfl

/-- Sample proxied request used to instantiate the routing theorem. -/
def sampleProxyReq : Request :=
  ⟨"POST", "/api/v1/startup/workflows", "draft=1",
   ⟨"gateway.local", some "Bearer tok", [("content-type", "application/json")]⟩,
   [123, 34, 99, 34, 125], "203.0.113.7"⟩

/-- C1 witness: the routing theorem applied to a concrete POST request to
    /api/v1/startup/workflows. -/
theorem proxy_routing_rewrite_witness :
    dispatch envDefault [] 0 0 sampleProxyReq =
      Outcome.proxyTo
        ⟨"startupFormation", "/api/v1/startup", "/api/v1/startup", "/api/v1",
         "http://startup-formation:8000", "STARTUP_FORMATION_ERROR",
         "Startup Formation Service is currently unavailable"⟩
        ⟨"POST", "/api/v1/workflows", "draft=1",
         ⟨"startup-formation:8000", some "Bearer tok",
          [("content-type", "application/json")]⟩,
         [123, 34, 99, 34, 125], "203.0.113.7"⟩ := by
  have h := proxy_routing_rewrite envDefault [] 0 0 sampleProxyReq
    ⟨"startupFormation", "/api/v1/startup", "/api/v1/startup", "/api/v1",
     startupFormationUrl envDefault, "STARTUP_FORMATION_ERROR",
     "Startup Formation Service is currently unavailable"⟩
    (by decide) "workflows" (by decide)
  exact h.1.trans (by decide)

/-- Concrete request whose host header differs from the upstream host. -/
def proxyCexReq : Request :=
  ⟨"GET", "/api/v1/legal/audit", "", ⟨"www.yogabrata.com", none, []⟩, [],
   "198.51.100.9"⟩

/-- C1 counterexample: the gateway does not forward headers byte-for-byte;
    changeOrigin replaces the host header of the forwarded request with the
    upstream host, so the forwarded headers differ from the inbound ones. -/
theorem proxy_headers_not_preserved_cex :
    dispatch envDefault [] 0 0 proxyCexReq =
      Outcome.proxyTo
        ⟨"legalCompliance", "/api/v1/legal", "/api/v1/legal", "/api/v1",
         "http://legal-compliance:8000", "LEGAL_COMPLIANCE_ERROR",
         "Legal Compliance Service is currently unavailable"⟩
        ⟨"GET", "/api/v1/audit", "", ⟨"legal-compliance:8000", none, []⟩, [],
         "198.51.100.9"⟩
    ∧ (⟨"legal-compliance:8000", none, []⟩ : Headers) ≠ proxyCexReq.headers := by
  decide

/-- C2 (amended): a network-level error contacting an upstream makes its
    onError handler synthesize a response with status 500 whose JSON body is
    the route's fixed service-specific error code and unavailability message;
    the four registered routes carry exactly the four service-specific codes,
    and the response is independent of the underlying network error message,
    which therefore never appears in it. -/
theorem proxy_error_responses (env : Env) :
    (gatewayRoutes env).map (fun r => (r.serviceName, r.errorCode, r.errorMessage)) =
      [("startupFormation", "STARTUP_FORMATION_ERROR",
        "Startup Formation Service is currently unavailable"),
       ("legalCompliance", "LEGAL_COMPLIANCE_ERROR",
        "Legal Compliance Service is currently unavailable"),
       ("contentStrategy", "CONTENT_STRATEGY_ERROR",
        "Content Strategy Service is currently unavailable"),
       ("businessFormation", "BUSINESS_FORMATION_ERROR",
        "Business Formation Service is currently unavailable")]
    ∧ (∀ r err, proxyErrorResponse r err =
        (500, [("error", JVal.s r.errorCode), ("message", JVal.s r.errorMessage)]))
    ∧ (∀ r e₁ e₂, proxyErrorResponse r e₁ = proxyErrorResponse r e₂) := by
  refine ⟨rfl, fun r err => rfl, fun r e₁ e₂ => rfl⟩

/-- C2 counterexample: the synthesized upstream-failure response has status
    500, not a 502 Bad Gateway class status as the claim states. -/
theorem proxy_error_status_cex :
    (gatewayRoutes envDefault).map
      (fun r => (proxyErrorResponse r "connect ECONNREFUSED").fst) =
      [500, 500, 500, 500]
    ∧ (500 : Nat) ≠ 502 := by
  decide

/-- C3 (amended): a request to a path under /api/ that matches none of the
    four registered mounts and is not a GET of /api/services receives a 404
    whose body has error API_ENDPOINT_NOT_FOUND, a message naming the
    requested URL, and the four registered service names. -/
theorem api_fallback_404 (env : Env) (sfiles : List String) (startTime now : Nat)
    (req : Request)
    (hapi : strIsPre "/api/" req.path = true)
    (hmiss : ∀ r ∈ gatewayRoutes env, mountMatches r.mountPath req.path = false)
    (hsvc : ¬(req.method = "GET" ∧ routePathMatches "/api/services" req.path = true)) :
    dispatch env sfiles startTime now req = Outcome.respond 404 (apiNotFoundBody req)
    ∧ apiNotFoundBody req =
      [("error", JVal.s "API_ENDPOINT_NOT_FOUND"),
       ("message", JVal.s ("API endpoint " ++ originalUrl req ++ " not found")),
       ("availableServices", JVal.ss
         ["startupFormation", "legalCompliance", "contentStrategy",
          "businessFormation"])] := by
  have hh : routePathMatches "/health" req.path = false := by
    rw [Bool.eq_false_iff]
    intro hcontra
    simp only [routePathMatches, Bool.or_eq_true, beq_iff_eq] at hcontra
    rcases hcontra with h | h
    · rw [h] at hapi
      exact absurd hapi (by decide)
    · rw [h] at hapi
      exact absurd hapi (by decide)
  have hsg : (req.method == "GET" && routePathMatches "/api/services" req.path)
      = false := by
    rw [Bool.eq_false_iff]
    intro hcontra
    simp only [Bool.and_eq_true] at hcontra
    exact hsvc ⟨eq_of_beq hcontra.1, hcontra.2⟩
  have hfind : (gatewayRoutes env).find? (fun x => mountMatches x.mountPath req.path)
      = none := by
    apply List.find?_eq_none.mpr
    intro x hx
    simp [hmiss x hx]
  refine ⟨?_, rfl⟩
  unfold dispatch
  rw [hh, hsg, hfind, hapi]
  simp only [Bool.and_false, Bool.false_eq_true, if_false, if_true]

/-- Concrete unmatched API request from the spec scenario. -/
def apiUnknownReq : Request :=
  ⟨"GET", "/api/unknown", "", ⟨"localhost:8080", none, []⟩, [], "192.0.2.1"⟩

/-- C3 witness: GET /api/unknown receives the API_ENDPOINT_NOT_FOUND 404 with
    the four service names. -/
theorem api_fallback_404_witness :
    dispatch envDefault [] 0 0 apiUnknownReq =
      Outcome.respond 404
        [("error", JVal.s "API_ENDPOINT_NOT_FOUND"),
         ("message", JVal.s "API endpoint /api/unknown not found"),
         ("availableServices", JVal.ss
           ["startupFormation", "legalCompliance", "contentStrategy",
            "businessFormation"])] := by
  have h := api_fallback_404 envDefault [] 0 0 apiUnknownReq
    (by decide) (by decide) (by decide)
  exact h.1.trans (by decide)

/-- Concrete GET /api/services request. -/
def apiServicesReq : Request :=
  ⟨"GET", "/api/services", "", ⟨"localhost:8080", none, []⟩, [], "192.0.2.1"⟩

/-- C3 counterexample: GET /api/services is under /api/ and matches none of
    the four registered mount paths, yet it is answered 200 by the service
    discovery endpoint, not 404. -/
theorem api_fallback_services_cex :
    statusOf (dispatch envDefault [] 0 0 apiServicesReq) = some 200
    ∧ (∀ r ∈ gatewayRoutes envDefault,
        mountMatches r.mountPath apiServicesReq.path = false)
    ∧ strIsPre "/api/" apiServicesReq.path = true
    ∧ (200 : Nat) ≠ 404 := by
  decide

/-- C4: the identity decorator never rejects: up to the authorization header
    relayed inside a forwarded upstream request, a request with any
    authorization header (including a malformed or badly-signed bearer
    token) is routed and proxied exactly as the identical request with no
    authorization header, and when token verification fails the attached
    req.user is none, just as in the no-header case. -/
theorem auth_never_blocks (verify : String → String → Option String) (env : Env)
    (sfiles : List String) (startTime now : Nat) (req : Request)
    (h : Option String) :
    eraseAuth (dispatch env sfiles startTime now (setAuth req h)) =
      eraseAuth (dispatch env sfiles startTime now (setAuth req none))
    ∧ (∀ tok, extractToken h = some tok → verify tok (jwtSecretOf env) = none →
        reqUser verify env (setAuth req h) = none
        ∧ reqUser verify env (setAuth req none) = none) := by
  obtain ⟨m, p, q, ⟨hh₀, ha₀, hr₀⟩, b, ip⟩ := req
  constructor
  · simp only [setAuth]
    unfold dispatch
    by_cases c1 : (m == "GET" && routePathMatches "/health" p) = true
    · simp [c1]
    · by_cases c2 : (m == "GET" && routePathMatches "/api/services" p) = true
      · simp [c1, c2]
      · cases hfind : (gatewayRoutes env).find? (fun r => mountMatches r.mountPath p) with
        | some r => simp [c1, c2, hfind, eraseAuth, forwardReq]
        | none => simp [c1, c2, hfind, apiNotFoundBody, notFoundBody, originalUrl]
  · intro tok htok hver
    constructor
    · simp [reqUser, setAuth, authUser, htok, hver]
    · simp [reqUser, setAuth, authUser, extractToken]

/-- Verification stub that accepts no token at all. -/
def verifyNone : String → String → Option String := fun t s => none

/-- Sample request used to instantiate the non-blocking-auth theorem. -/
def authSampleReq : Request :=
  ⟨"GET", "/api/v1/content/posts", "", ⟨"localhost", none, []⟩, [], "192.0.2.5"⟩

/-- C4 witness: a request with a bad bearer token is dispatched exactly like
    the same request with no authorization header, and no user is attached. -/
theorem auth_never_blocks_witness :
    eraseAuth (dispatch envDefault [] 0 0 (setAuth authSampleReq (some "Bearer bad"))) =
      eraseAuth (dispatch envDefault [] 0 0 (setAuth authSampleReq none))
    ∧ reqUser verifyNone envDefault (setAuth authSampleReq (some "Bearer bad")) = none := by
  have hmain := auth_never_blocks verifyNone envDefault [] 0 0 authSampleReq
    (some "Bearer bad")
  exact ⟨hmain.1, (hmain.2 "bad" (by decide) rfl).1⟩

theorem getHits_bump (hs : List (String × Nat)) (ip : String) :
    getHits (bumpHits hs ip) ip = getHits hs ip + 1 := by
  simp [bumpHits, getHits, List.find?]

/-- C5: the limiter counts every request against a 1000-per-15-minute budget
    keyed by the caller IP only: the limiter state advances by one count for
    the request's IP whatever the route; a request over budget gets the 429
    with the static message; once a request was refused, every further
    request from that IP before the window resets is refused as well; once
    the window has elapsed the next request is allowed and handled by normal
    dispatch. -/
theorem rate_limit_contract :
    rlWindowMs = 15 * 60 * 1000 ∧ rlMax = 1000
    ∧ (∀ verify env sfiles startTime now st req,
        (handleRequest verify env sfiles startTime now st req).2.2 =
          (rlStep st req.ip now).2)
    ∧ (∀ verify env sfiles startTime now st req,
        (rlStep st req.ip now).1 = false →
          (handleRequest verify env sfiles startTime now st req).1 =
            Outcome.respond 429 rateLimitBody)
    ∧ (∀ st ip now₁ now₂, (rlStep st ip now₁).1 = false →
        now₂ < (rlStep st ip now₁).2.windowStart + rlWindowMs →
        (rlStep (rlStep st ip now₁).2 ip now₂).1 = false)
    ∧ (∀ st ip now, st.windowStart + rlWindowMs ≤ now →
        (rlStep st ip now).1 = true)
    ∧ (∀ verify env sfiles startTime now st req,
        (rlStep st req.ip now).1 = true →
          (handleRequest verify env sfiles startTime now st req).1 =
            dispatch env sfiles startTime now req) := by
  refine ⟨rfl, rfl, ?_, ?_, ?_, ?_, ?_⟩
  · intro verify env sfiles startTime now st req
    simp only [handleRequest]
    split <;> rfl
  · intro verify env sfiles startTime now st req hfalse
    simp only [handleRequest]
    rw [hfalse]
    rfl
  · intro st ip now₁ now₂ h1 h2
    simp only [rlStep] at h1 h2 ⊢
    rw [if_neg (by exact Nat.not_le.mpr h2)]
    rw [getHits_bump]
    have h1' := of_decide_eq_false h1
    apply decide_eq_false
    omega
  · intro st ip now h
    simp only [rlStep]
    rw [if_pos h]
    simp [getHits, rlMax]
  · intro verify env sfiles startTime now st req htrue
    simp only [handleRequest]
    rw [htrue]
    rfl

/-- Sample request used to instantiate the rate limiter theorem. -/
def rlSampleReq : Request :=
  ⟨"GET", "/health", "", ⟨"localhost", none, []⟩, [], "203.0.113.9"⟩

/-- C5 witness: with 1000 hits already counted for an IP, the next request
    is refused with the static 429 body, the one after that (still inside
    the window) is refused too, and a request after the window has elapsed
    is allowed. -/
theorem rate_limit_contract_witness :
    (handleRequest verifyNone envDefault [] 0 1
        ⟨0, [("203.0.113.9", 1000)]⟩ rlSampleReq).1 =
      Outcome.respond 429 rateLimitBody
    ∧ (rlStep (rlStep ⟨0, [("203.0.113.9", 1000)]⟩ "203.0.113.9" 1).2
        "203.0.113.9" 2).1 = false
    ∧ (rlStep (⟨0, [("203.0.113.9", 1000)]⟩ : RLState) "203.0.113.9" 900000).1
      = true := by
  obtain ⟨hA, hB, hC, hD, hE, hF, hG⟩ := rate_limit_contract
  exact ⟨hD verifyNone envDefault [] 0 1 ⟨0, [("203.0.113.9", 1000)]⟩ rlSampleReq
      (by decide),
    hE ⟨0, [("203.0.113.9", 1000)]⟩ "203.0.113.9" 1 2 (by decide) (by decide),
    hF ⟨0, [("203.0.113.9", 1000)]⟩ "203.0.113.9" 900000 (by decide)⟩

/-- C6: the global error handler answers every error passed to it with a 500
    INTERNAL_ERROR response whose body is a fixed object; the response is
    independent of the triggering error, so the error message and its context
    never reach the caller's response body. -/
theorem internal_error_handler_contract :
    (∀ err, globalErrorHandler err =
      (500, [("error", JVal.s "INTERNAL_ERROR"),
             ("message", JVal.s "An unexpected error occurred")]))
    ∧ (∀ e₁ e₂, globalErrorHandler e₁ = globalErrorHandler e₂) := by
  exact ⟨fun err => rfl, fun e₁ e₂ => rfl⟩

/-- C7 (amended): a request whose path matches neither the four proxied
    mounts, the /health route, the /api/services route, nor the /api/ fallback
    receives the generic 404 NOT_FOUND naming the requested route, provided
    the development static/SPA catch-all is not in effect (NODE_ENV is not
    development, or the method is not GET). -/
theorem generic_not_found (env : Env) (sfiles : List String) (startTime now : Nat)
    (req : Request)
    (hhm : routePathMatches "/health" req.path = false)
    (hsm : routePathMatches "/api/services" req.path = false)
    (hmiss : ∀ r ∈ gatewayRoutes env, mountMatches r.mountPath req.path = false)
    (hapi : strIsPre "/api/" req.path = false)
    (hdev : ¬(env.nodeEnv = some "development" ∧ req.method = "GET")) :
    dispatch env sfiles startTime now req = Outcome.respond 404 (notFoundBody req)
    ∧ notFoundBody req =
      [("error", JVal.s "NOT_FOUND"),
       ("message", JVal.s ("Route " ++ originalUrl req ++ " not found"))] := by
  have hfind : (gatewayRoutes env).find? (fun x => mountMatches x.mountPath req.path)
      = none := by
    apply List.find?_eq_none.mpr
    intro x hx
    simp [hmiss x hx]
  have hdev' : (env.nodeEnv == some "development" && req.method == "GET") = false := by
    rw [Bool.eq_false_iff]
    intro hc
    simp only [Bool.and_eq_true, beq_iff_eq] at hc
    exact hdev hc
  refine ⟨?_, rfl⟩
  unfold dispatch
  rw [hhm, hsm, hfind, hapi, hdev']
  simp only [Bool.and_false, Bool.false_eq_true, if_false]

/-- Concrete unmatched non-API request. -/
def notFoundSampleReq : Request :=
  ⟨"GET", "/dashboard", "", ⟨"localhost", none, []⟩, [], "192.0.2.2"⟩

/-- C7 witness: outside development, GET /dashboard receives the generic
    NOT_FOUND 404 naming the route. -/
theorem generic_not_found_witness :
    dispatch envDefault [] 0 0 notFoundSampleReq =
      Outcome.respond 404
        [("error", JVal.s "NOT_FOUND"),
         ("message", JVal.s "Route /dashboard not found")] := by
  have h := generic_not_found envDefault [] 0 0 notFoundSampleReq
    (by decide) (by decide) (by decide) (by decide) (by decide)
  exact h.1.trans (by decide)

/-- Concrete unmatched GET request in development mode. -/
def devGetReq : Request :=
  ⟨"GET", "/dashboard", "", ⟨"localhost", none, []⟩, [], "192.0.2.3"⟩

/-- C7 counterexample: with NODE_ENV=development, an unmatched GET outside
    /api/ is answered by the SPA catch-all with index.html, not the generic
    404 the claim asserts for every such request. -/
theorem generic_not_found_dev_cex :
    dispatch envDev [] 0 0 devGetReq = Outcome.sendFile "index.html"
    ∧ Outcome.sendFile "index.html" ≠ Outcome.respond 404 (notFoundBody devGetReq) := by
  decide

/-- C9 (amended): in development, a GET to an unmatched non-API path not
    served by the static middleware is answered with index.html; an
    unmatched non-GET request gets the generic 404 even in development; and
    outside development every unmatched request gets the generic 404. -/
theorem dev_spa_catchall (env : Env) (sfiles : List String) (startTime now : Nat)
    (req : Request)
    (hhm : routePathMatches "/health" req.path = false)
    (hsm : routePathMatches "/api/services" req.path = false)
    (hmiss : ∀ r ∈ gatewayRoutes env, mountMatches r.mountPath req.path = false)
    (hapi : strIsPre "/api/" req.path = false) :
    (env.nodeEnv = some "development" → req.method = "GET" →
      sfiles.contains req.path = false →
      dispatch env sfiles startTime now req = Outcome.sendFile "index.html")
    ∧ (req.method ≠ "GET" →
      dispatch env sfiles startTime now req = Outcome.respond 404 (notFoundBody req))
    ∧ (env.nodeEnv ≠ some "development" →
      dispatch env sfiles startTime now req = Outcome.respond 404 (notFoundBody req)) := by
  have hfind : (gatewayRoutes env).find? (fun x => mountMatches x.mountPath req.path)
      = none := by
    apply List.find?_eq_none.mpr
    intro x hx
    simp [hmiss x hx]
  refine ⟨?_, ?_, ?_⟩
  · intro hdev hget hstat
    have hcond : (env.nodeEnv == some "development" && req.method == "GET") = true := by
      rw [hdev, hget]
      decide
    unfold dispatch
    rw [hhm, hsm, hfind, hapi, hcond, hstat]
    simp only [Bool.and_false, Bool.false_eq_true, if_false, if_true]
  · intro hneq
    have hg : (req.method == "GET") = false := beq_eq_false_iff_ne.mpr hneq
    unfold dispatch
    rw [hg, hfind, hapi]
    simp only [Bool.false_and, Bool.and_false, Bool.false_eq_true, if_false]
  · intro hne
    have hd : (env.nodeEnv == some "development") = false := beq_eq_false_iff_ne.mpr hne
    have hc : (env.nodeEnv == some "development" && req.method == "GET") = false := by
      rw [hd, Bool.false_and]
    unfold dispatch
    rw [hhm, hsm, hfind, hapi, hc]
    simp only [Bool.and_false, Bool.false_eq_true, if_false]

/-- Concrete unmatched GET request for the development SPA case. -/
def devAboutGetReq : Request :=
  ⟨"GET", "/about", "", ⟨"localhost", none, []⟩, [], "192.0.2.4"⟩

/-- Concrete unmatched POST request for the development 404 case. -/
def devAboutPostReq : Request :=
  ⟨"POST", "/about", "", ⟨"localhost", none, []⟩, [], "192.0.2.4"⟩

/-- C9 witness: in development GET /about is answered with index.html while
    POST /about still receives the generic 404. -/
theorem dev_spa_catchall_witness :
    dispatch envDev [] 0 0 devAboutGetReq = Outcome.sendFile "index.html"
    ∧ dispatch envDev [] 0 0 devAboutPostReq =
      Outcome.respond 404 (notFoundBody devAboutPostReq) := by
  have h1 := dev_spa_catchall envDev [] 0 0 devAboutGetReq
    (by decide) (by decide) (by decide) (by decide)
  have h2 := dev_spa_catchall envDev [] 0 0 devAboutPostReq
    (by decide) (by decide) (by decide) (by decide)
  exact ⟨h1.1 rfl rfl (by decide), h2.2.1 (by decide)⟩

/-- Concrete unmatched POST request in development. -/
def devPostFormReq : Request :=
  ⟨"POST", "/form", "", ⟨"localhost", none, []⟩, [], "192.0.2.6"⟩

/-- C9 counterexample: the generic NOT_FOUND 404 is produced in development
    too, for a non-GET unmatched request, refuting that it only occurs when
    NODE_ENV is not development. -/
theorem dev_spa_catchall_cex :
    dispatch envDev [] 0 0 devPostFormReq =
      Outcome.respond 404
        [("error", JVal.s "NOT_FOUND"),
         ("message", JVal.s "Route /form not found")]
    ∧ envDev.nodeEnv = some "development" := by
  decide

/-- C8: every GET /health request is answered 200 with a body carrying
    status "healthy", the service name, the timestamp, and the process
    uptime; two such requests at successive instants both report status
    "healthy", and the uptime of the later response is at least that of the
    earlier one. -/
theorem health_monotone (env : Env) (sfiles : List String)
    (startTime t₁ t₂ : Nat) (hd : Headers) (b : List Nat) (ip q : String)
    (hle : t₁ ≤ t₂) :
    dispatch env sfiles startTime t₁ ⟨"GET", "/health", q, hd, b, ip⟩ =
      Outcome.respond 200 (healthBody startTime t₁)
    ∧ dispatch env sfiles startTime t₂ ⟨"GET", "/health", q, hd, b, ip⟩ =
      Outcome.respond 200 (healthBody startTime t₂)
    ∧ healthBody startTime t₁ =
      [("status", JVal.s "healthy"), ("service", JVal.s "api-gateway"),
       ("timestamp", JVal.n t₁), ("uptime", JVal.n (t₁ - startTime))]
    ∧ healthBody startTime t₂ =
      [("status", JVal.s "healthy"), ("service", JVal.s "api-gateway"),
       ("timestamp", JVal.n t₂), ("uptime", JVal.n (t₂ - startTime))]
    ∧ t₁ - startTime ≤ t₂ - startTime := by
  refine ⟨?_, ?_, rfl, rfl, Nat.sub_le_sub_right hle _⟩
  · simp [dispatch, routePathMatches]
  · simp [dispatch, routePathMatches]

/-- C8 witness: two concrete /health requests at times 5 and 9 with start
    time 3 both succeed and the uptimes are non-decreasing. -/
theorem health_monotone_witness :
    dispatch envDefault [] 3 5 ⟨"GET", "/health", "", ⟨"localhost", none, []⟩,
        [], "127.0.0.1"⟩ =
      Outcome.respond 200 (healthBody 3 5)
    ∧ dispatch envDefault [] 3 9 ⟨"GET", "/health", "", ⟨"localhost", none, []⟩,
        [], "127.0.0.1"⟩ =
      Outcome.respond 200 (healthBody 3 9)
    ∧ (5 : Nat) - 3 ≤ (9 : Nat) - 3 := by
  have h := health_monotone envDefault [] 3 5 9 ⟨"localhost", none, []⟩ []
    "127.0.0.1" "" (by decide)
  exact ⟨h.1, h.2.1, h.2.2.2.2⟩

/-- C10: with JWT_SECRET unset, tokens are verified against the hardcoded
    fallback secret, so any token the verifier accepts under
    "your-secret-key" yields decoded claims attached as req.user on the
    proxied mounts. -/
theorem jwt_fallback_secret (verify : String → String → Option String)
    (env : Env) (h : Option String) (tok u : String) (req : Request)
    (hsec : env.jwtSecret = none)
    (htok : extractToken h = some tok)
    (hver : verify tok "your-secret-key" = some u) :
    jwtSecretOf env = "your-secret-key"
    ∧ authUser verify env h = some u
    ∧ (req.headers.authorization = h →
        (gatewayRoutes env).any (fun r => mountMatches r.mountPath req.path) = true →
        reqUser verify env req = some u) := by
  have hs : jwtSecretOf env = "your-secret-key" := by
    rw [jwtSecretOf, hsec]
    rfl
  refine ⟨hs, ?_, ?_⟩
  · simp [authUser, htok, hs, hver]
  · intro hha hmnt
    simp [reqUser, hmnt, authUser, hha, htok, hs, hver]

/-- Verification stub accepting exactly one token under the fallback secret. -/
def verifySample : String → String → Option String :=
  fun t s =>
    if t == "good.token" && s == "your-secret-key" then some "founder-1" else none

/-- C10 witness: with no JWT_SECRET configured, a request on a proxied mount
    bearing a token signed for the fallback secret gets its decoded claims
    attached as the request user. -/
theorem jwt_fallback_secret_witness :
    authUser verifySample envDefault (some "Bearer good.token") = some "founder-1"
    ∧ reqUser verifySample envDefault
      ⟨"GET", "/api/v1/startup/x", "", ⟨"gw", some "Bearer good.token", []⟩, [],
       "192.0.2.8"⟩ = some "founder-1" := by
  have h := jwt_fallback_secret verifySample envDefault (some "Bearer good.token")
    "good.token" "founder-1"
    ⟨"GET", "/api/v1/startup/x", "", ⟨"gw", some "Bearer good.token", []⟩, [],
     "192.0.2.8"⟩
    rfl (by decide) (by decide)
  exact ⟨h.2.1, h.2.2 rfl (by decide)⟩

end Gateway
